import Mathlib

set_option maxRecDepth 8192

/-!
Verification of the quoted-string decision core in `src/quoted_string/mime.rs`
of the `media-type-parser-utils` repository.

The file shallowly embeds the Rust source: the two stateless quoting
classifiers (`MimeObsQuoting`, `MimeObsUtf8Quoting`), the four grammar
profiles' `can_be_quoted` predicates (`MimeObsParsing`, `MimeObsParsingUtf8`,
`MimeParsing`, `MimeParsingUtf8`), and the bare-token validator
(`MimeTokenValidator`).  A code unit (`PartialCodePoint.as_u8()`) is embedded
as a `Nat`; claims quantify over values below 256.
-/

/-- The named character categories of the `MediaTypeChars` lookup table
(`QText`, `Ws`, `QTextWs`, `DQuoteOrEscape`, `Token` in the source). -/
inductive CharClass : Type
  | qText
  | ws
  | qTextWs
  | dQuoteOrEscape
  | token
deriving DecidableEq

/-- Modelled from the spec: membership in the `Ws` category of the external
`MediaTypeChars` lookup table (from the `lookup_tables` crate, which is not
under src/).  Linear whitespace: horizontal tab (0x09) and space (0x20);
the spec's scenario 4 places 0x09 in Whitespace. -/
def wsChar (v : Nat) : Bool :=
  v == 0x09 || v == 0x20

/-- Modelled from the spec: membership in the `QText` category of the external
`MediaTypeChars` lookup table.  Per the RFC definition of `qtext` referenced
by the spec: printable US-ASCII except the double quote (0x22) and the escape
marker backslash (0x5C); no control characters, no 0x7F, no values above
0x7F. -/
def qTextChar (v : Nat) : Bool :=
  v == 33 || (35 ≤ v && v ≤ 91) || (93 ≤ v && v ≤ 126)

/-- Modelled from the spec: membership in the `DQuoteOrEscape` category of the
external `MediaTypeChars` lookup table: the quote delimiter 0x22 and the
escape marker 0x5C. -/
def dQuoteOrEscapeChar (v : Nat) : Bool :=
  v == 0x22 || v == 0x5C

/-- Modelled from the spec: membership in the `Token` category of the external
`MediaTypeChars` lookup table.  Per the RFC definition of `token` referenced
by the spec: any printable US-ASCII character except space and the
tspecials. -/
def tokenChar (v : Nat) : Bool :=
  (33 ≤ v && v ≤ 126) &&
  !(v == 40 || v == 41 || v == 60 || v == 62 || v == 64 ||
    v == 44 || v == 59 || v == 58 || v == 92 || v == 34 ||
    v == 47 || v == 91 || v == 93 || v == 63 || v == 61)

/-- Modelled from the spec: `MediaTypeChars::check_at(idx, class)` — the
per-value category membership lookup.  `QTextWs` is `QText` plus linear
whitespace, as the spec's table-consistency requirement states
(QTextOrWhitespace ⊇ QText ∪ Whitespace). -/
def MediaTypeChars.check_at (idx : Nat) : CharClass → Bool
  | .qText => qTextChar idx
  | .ws => wsChar idx
  | .qTextWs => qTextChar idx || wsChar idx
  | .dQuoteOrEscape => dQuoteOrEscapeChar idx
  | .token => tokenChar idx

/-- Models `check_at(idx, Any::new(c1) | c2 | ...)`: membership in the union
of several categories. -/
def MediaTypeChars.check_any (idx : Nat) (cs : List CharClass) : Bool :=
  cs.any (fun c => MediaTypeChars.check_at idx c)

/-- The `QuotingClass` enum of the `qs::spec` interface: `QText` (safe
unescaped), `NeedsQuoting` (must be escaped), `Invalid` (not representable). -/
inductive QuotingClass : Type
  | QText
  | NeedsQuoting
  | Invalid
deriving DecidableEq

/-- `MimeObsQuoting::classify_for_quoting` (src/quoted_string/mime.rs lines
45-56): `QText` when the value is in `QTextWs`, else `NeedsQuoting` when the
value is at most 0x7F, else `Invalid`. -/
def MimeObsQuoting.classify_for_quoting (pcp : Nat) : QuotingClass :=
  if MediaTypeChars.check_at pcp CharClass.qTextWs then
    QuotingClass.QText
  else if pcp ≤ 0x7f then
    QuotingClass.NeedsQuoting
  else
    QuotingClass.Invalid

/-- `MimeObsUtf8Quoting::classify_for_quoting` (src/quoted_string/mime.rs
lines 62-71): `QText` when the value is above 0x7F or in `QTextWs`, else
`NeedsQuoting`. -/
def MimeObsUtf8Quoting.classify_for_quoting (pcp : Nat) : QuotingClass :=
  if pcp > 0x7f || MediaTypeChars.check_at pcp CharClass.qTextWs then
    QuotingClass.QText
  else
    QuotingClass.NeedsQuoting

/-- `MimeObsParsing::can_be_quoted` (src/quoted_string/mime.rs lines 113-123):
obsolete syntax allows any US-ASCII value in quoted-pairs. -/
def MimeObsParsing.can_be_quoted (bch : Nat) : Bool :=
  bch ≤ 0x7f

/-- `MimeObsParsingUtf8::can_be_quoted` (src/quoted_string/mime.rs lines
125-136): internationalized mail does not extend quoted-pairs, so the body is
the same US-ASCII bound as `MimeObsParsing`. -/
def MimeObsParsingUtf8.can_be_quoted (bch : Nat) : Bool :=
  bch ≤ 0x7f

/-- `MimeParsing::can_be_quoted` (src/quoted_string/mime.rs lines 138-149):
`check_at(idx, Any::new(Ws) | QText | DQuoteOrEscape)`. -/
def MimeParsing.can_be_quoted (bch : Nat) : Bool :=
  MediaTypeChars.check_any bch [CharClass.ws, CharClass.qText, CharClass.dQuoteOrEscape]

/-- `MimeParsingUtf8::can_be_quoted` (src/quoted_string/mime.rs lines
151-162): same union check as `MimeParsing`. -/
def MimeParsingUtf8.can_be_quoted (bch : Nat) : Bool :=
  MediaTypeChars.check_any bch [CharClass.ws, CharClass.qText, CharClass.dQuoteOrEscape]

/-- The field-less `MimeTokenValidator` struct (src/quoted_string/mime.rs
line 22). -/
structure MimeTokenValidator : Type

/-- `MimeTokenValidator::new` — `Default::default()`. -/
def MimeTokenValidator.new : MimeTokenValidator := {}

/-- `MimeTokenValidator::next` of the `WithoutQuotingValidator` impl
(src/quoted_string/mime.rs lines 32-34): checks `Token` membership; `&mut
self` is embedded by returning the (unchanged) state. -/
def MimeTokenValidator.next (s : MimeTokenValidator) (pcp : Nat) :
    MimeTokenValidator × Bool :=
  (s, MediaTypeChars.check_at pcp CharClass.token)

/-- `MimeTokenValidator::end` of the `WithoutQuotingValidator` impl
(src/quoted_string/mime.rs lines 35-37); named `finish` here because `end` is
a Lean keyword.  Always `true`. -/
def MimeTokenValidator.finish (_s : MimeTokenValidator) : Bool :=
  true

/-- Driving a validator over a whole input: one `next` call per value
(threading the state), then `end`; returns the per-value results and the
final result. -/
def MimeTokenValidator.run : MimeTokenValidator → List Nat → List Bool × Bool
  | s, [] => ([], s.finish)
  | s, v :: vs =>
    let r := s.next v
    let rest := r.1.run vs
    (r.2 :: rest.1, rest.2)

/-- Helper: the final `end` result of a validator run is `true` for every
starting state and every input. -/
theorem MimeTokenValidator.run_snd_true (s : MimeTokenValidator) (xs : List Nat) :
    (s.run xs).2 = true := by
  induction xs generalizing s with
  | nil => rfl
  | cons v vs ih => simpa [MimeTokenValidator.run] using ih _

/-- C1: for every value 0-255, `MimeObsQuoting::classify_for_quoting` returns
`QText` if the value is in the `QTextWs` category, otherwise `NeedsQuoting`
if the value is at most 0x7F, and otherwise `Invalid`; in particular whenever
the category lookup contains `QTextWs` it returns `QText`. -/
theorem MimeObsQuoting.classify_for_quoting_spec :
    ∀ v : Nat, v < 256 →
      (MediaTypeChars.check_at v CharClass.qTextWs = true →
        MimeObsQuoting.classify_for_quoting v = QuotingClass.QText) ∧
      (MediaTypeChars.check_at v CharClass.qTextWs = false → v ≤ 0x7f →
        MimeObsQuoting.classify_for_quoting v = QuotingClass.NeedsQuoting) ∧
      (MediaTypeChars.check_at v CharClass.qTextWs = false → 0x7f < v →
        MimeObsQuoting.classify_for_quoting v = QuotingClass.Invalid) := by
  decide

/-- Witness for C1 at the concrete value 10 (LF: not in `QTextWs`, US-ASCII). -/
theorem MimeObsQuoting.classify_for_quoting_spec_witness :
    MimeObsQuoting.classify_for_quoting 10 = QuotingClass.NeedsQuoting :=
  (MimeObsQuoting.classify_for_quoting_spec 10 (by decide)).2.1 (by decide) (by decide)

/-- C2: for every value 0-255, `MimeObsUtf8Quoting::classify_for_quoting`
returns `QText` if the value is greater than 0x7F or in the `QTextWs`
category, otherwise `NeedsQuoting`; it never returns `Invalid`. -/
theorem MimeObsUtf8Quoting.classify_for_quoting_utf8_spec :
    ∀ v : Nat, v < 256 →
      ((0x7f < v ∨ MediaTypeChars.check_at v CharClass.qTextWs = true) →
        MimeObsUtf8Quoting.classify_for_quoting v = QuotingClass.QText) ∧
      (v ≤ 0x7f → MediaTypeChars.check_at v CharClass.qTextWs = false →
        MimeObsUtf8Quoting.classify_for_quoting v = QuotingClass.NeedsQuoting) ∧
      MimeObsUtf8Quoting.classify_for_quoting v ≠ QuotingClass.Invalid := by
  decide

/-- Witness for C2 at the concrete non-ASCII value 0xC3. -/
theorem MimeObsUtf8Quoting.classify_for_quoting_utf8_spec_witness :
    MimeObsUtf8Quoting.classify_for_quoting 195 = QuotingClass.QText :=
  (MimeObsUtf8Quoting.classify_for_quoting_utf8_spec 195 (by decide)).1 (Or.inl (by decide))

/-- C3: for all 256 values, both obsolete profiles' `can_be_quoted`
predicates return `true` exactly when the value is at most 0x7F. -/
theorem obs_can_be_quoted_spec :
    ∀ v : Nat, v < 256 →
      (MimeObsParsing.can_be_quoted v = true ↔ v ≤ 0x7f) ∧
      (MimeObsParsingUtf8.can_be_quoted v = true ↔ v ≤ 0x7f) := by
  decide

/-- Witness for C3 at the concrete value 0x22 (the quote delimiter). -/
theorem obs_can_be_quoted_spec_witness :
    MimeObsParsing.can_be_quoted 34 = true ∧ MimeObsParsingUtf8.can_be_quoted 34 = true :=
  ⟨(obs_can_be_quoted_spec 34 (by decide)).1.mpr (by decide),
   (obs_can_be_quoted_spec 34 (by decide)).2.mpr (by decide)⟩

/-- C4: for all 256 values, both modern profiles' `can_be_quoted` predicates
return `true` exactly when the value belongs to at least one of the
categories `Ws`, `QText`, `DQuoteOrEscape`. -/
theorem modern_can_be_quoted_spec :
    ∀ v : Nat, v < 256 →
      (MimeParsing.can_be_quoted v = true ↔
        (MediaTypeChars.check_at v CharClass.ws = true ∨
         MediaTypeChars.check_at v CharClass.qText = true ∨
         MediaTypeChars.check_at v CharClass.dQuoteOrEscape = true)) ∧
      (MimeParsingUtf8.can_be_quoted v = true ↔
        (MediaTypeChars.check_at v CharClass.ws = true ∨
         MediaTypeChars.check_at v CharClass.qText = true ∨
         MediaTypeChars.check_at v CharClass.dQuoteOrEscape = true)) := by
  decide

/-- Witness for C4 at the concrete value 0x5C (the escape marker). -/
theorem modern_can_be_quoted_spec_witness :
    MimeParsing.can_be_quoted 92 = true ∧ MimeParsingUtf8.can_be_quoted 92 = true :=
  ⟨(modern_can_be_quoted_spec 92 (by decide)).1.mpr (Or.inr (Or.inr (by decide))),
   (modern_can_be_quoted_spec 92 (by decide)).2.mpr (Or.inr (Or.inr (by decide)))⟩

/-- C5: monotonic widening — for every value where the restricted classifier
returns `QText` the extended one does too; where the restricted one returns
`NeedsQuoting` the extended one returns `QText` or `NeedsQuoting`; the
extended classifier never returns `Invalid` for a value the restricted one
accepts. -/
theorem quoting_monotonic_widening :
    ∀ v : Nat, v < 256 →
      (MimeObsQuoting.classify_for_quoting v = QuotingClass.QText →
        MimeObsUtf8Quoting.classify_for_quoting v = QuotingClass.QText) ∧
      (MimeObsQuoting.classify_for_quoting v = QuotingClass.NeedsQuoting →
        (MimeObsUtf8Quoting.classify_for_quoting v = QuotingClass.QText ∨
         MimeObsUtf8Quoting.classify_for_quoting v = QuotingClass.NeedsQuoting)) ∧
      (MimeObsQuoting.classify_for_quoting v ≠ QuotingClass.Invalid →
        MimeObsUtf8Quoting.classify_for_quoting v ≠ QuotingClass.Invalid) := by
  decide

/-- Witness for C5 at the concrete value 0x41. -/
theorem quoting_monotonic_widening_witness :
    MimeObsUtf8Quoting.classify_for_quoting 65 = QuotingClass.QText :=
  (quoting_monotonic_widening 65 (by decide)).1 (by decide)

/-- C6: the internationalized profiles' escaping predicates are extensionally
equal to their ASCII counterparts for every value 0-255. -/
theorem utf8_predicates_agree :
    ∀ v : Nat, v < 256 →
      MimeObsParsingUtf8.can_be_quoted v = MimeObsParsing.can_be_quoted v ∧
      MimeParsingUtf8.can_be_quoted v = MimeParsing.can_be_quoted v := by
  decide

/-- Witness for C6 at the concrete non-ASCII value 200. -/
theorem utf8_predicates_agree_witness :
    MimeObsParsingUtf8.can_be_quoted 200 = MimeObsParsing.can_be_quoted 200 ∧
    MimeParsingUtf8.can_be_quoted 200 = MimeParsing.can_be_quoted 200 :=
  utf8_predicates_agree 200 (by decide)

/-- C7: the bare-token validator accepts a value exactly when it is in the
`Token` category, independent of state, and its `end` result is `true`
unconditionally — also after any sequence of `next` calls. -/
theorem MimeTokenValidator.spec :
    (∀ (s : MimeTokenValidator) (v : Nat), v < 256 →
      ((s.next v).2 = true ↔ MediaTypeChars.check_at v CharClass.token = true)) ∧
    (∀ s : MimeTokenValidator, s.finish = true) ∧
    (∀ xs : List Nat, (MimeTokenValidator.new.run xs).2 = true) :=
  ⟨fun _ _ _ => Iff.rfl, fun _ => rfl, fun xs => MimeTokenValidator.run_snd_true _ xs⟩

/-- Witness for C7 at the concrete value 0x41, a `Token` character. -/
theorem MimeTokenValidator.spec_witness :
    (MimeTokenValidator.new.next 65).2 = true ∧ MimeTokenValidator.new.finish = true :=
  ⟨(MimeTokenValidator.spec.1 MimeTokenValidator.new 65 (by decide)).mpr (by decide),
   MimeTokenValidator.spec.2.1 MimeTokenValidator.new⟩

/-- C8: determinism — any two `MimeTokenValidator` instances (in particular
two fresh ones) fed the same sequence produce identical per-value results and
identical `end` results. -/
theorem MimeTokenValidator.run_deterministic :
    ∀ (s t : MimeTokenValidator) (xs : List Nat), s.run xs = t.run xs := by
  intro s t xs
  cases s
  cases t
  rfl

/-- C9: under the obsolete profiles, every value either classifier marks
`NeedsQuoting` satisfies both obsolete `can_be_quoted` predicates. -/
theorem needs_quoting_escapable_obs :
    ∀ v : Nat, v < 256 →
      (MimeObsQuoting.classify_for_quoting v = QuotingClass.NeedsQuoting ∨
       MimeObsUtf8Quoting.classify_for_quoting v = QuotingClass.NeedsQuoting) →
      MimeObsParsing.can_be_quoted v = true ∧
      MimeObsParsingUtf8.can_be_quoted v = true := by
  decide

/-- Witness for C9 at the concrete value 0 (NUL needs escaping and is
escapable in obsolete syntax). -/
theorem needs_quoting_escapable_obs_witness :
    MimeObsParsing.can_be_quoted 0 = true ∧ MimeObsParsingUtf8.can_be_quoted 0 = true :=
  needs_quoting_escapable_obs 0 (by decide) (Or.inl (by decide))

/-- C10: at the control value 0x00 — which is in none of the categories
`QTextWs`, `Ws`, `QText`, `DQuoteOrEscape` — the extended classifier returns
`NeedsQuoting`, yet both modern `can_be_quoted` predicates return `false`:
the value can neither appear unescaped nor be escaped under modern syntax. -/
theorem modern_escaping_gap :
    MimeObsUtf8Quoting.classify_for_quoting 0 = QuotingClass.NeedsQuoting ∧
    MimeParsing.can_be_quoted 0 = false ∧
    MimeParsingUtf8.can_be_quoted 0 = false ∧
    MediaTypeChars.check_at 0 CharClass.qTextWs = false ∧
    MediaTypeChars.check_at 0 CharClass.ws = false ∧
    MediaTypeChars.check_at 0 CharClass.qText = false ∧
    MediaTypeChars.check_at 0 CharClass.dQuoteOrEscape = false := by
  decide
